import Mathlib

/-!
Verification of the Favorite-State Synchronizer of the InspireMe repository.

The definitions below are a shallow embedding of `src/main.js` (the
localStorage helpers, the fallback-mode machinery, `checkIfFavorited`,
`toggleFavorite`, `syncPendingActions`, `attemptReconnect`),
`src/user-utils.js` (`getUserId`) and the two favorite RPC procedures of
`database/complete_setup_final.sql` (`add_favorite`, `remove_favorite`,
`is_quote_favorited`).

Modelling conventions:
- localStorage payloads are abstracted into `Payload`: a stored string is
  either the empty string (falsy in JS, so `|| '[]'` replaces it), a
  well-formed JSON array of integers, or malformed text on which
  `JSON.parse` throws.  A full `setItem` (quota exceeded / storage
  disabled) throws; this is the `setFails` flag.
- Supabase calls never reject: they resolve to a `{data, error}` pair, as
  the client library does for PostgREST errors.  Whether a given remote
  call fails is scripted by `RemoteEnv.script` (one Bool per successive
  call, exhausted script = success); a failed call leaves the remote
  database untouched.  A successful call applies the SQL semantics of the
  procedure: `add_favorite` is `INSERT ... ON CONFLICT DO NOTHING` (it
  succeeds even when the row already exists) and `remove_favorite` is a
  plain `DELETE`.
- Thrown JS exceptions are the `Except.error` component of results; since
  module-level state mutations survive a throw, the synchronizer
  operations return the updated `SyncState`/`RemoteEnv` alongside an
  `Except String` result rather than inside it.
-/

namespace InspireMe

/-- A value stored in localStorage under a favorites key, as seen by
`JSON.parse(localStorage.getItem(key) || '[]')`: absent keys are handled
by the caller, the empty string is falsy so the `'[]'` default applies,
`good` is a JSON array of integer ids, `bad` is malformed JSON. -/
inductive Payload
  | empty
  | good (xs : List Int)
  | bad
deriving DecidableEq, Repr

/-- The browser localStorage: an association list of key/payload pairs,
plus a flag modelling storage that is disabled or full, in which case
`setItem` throws (`QuotaExceededError`). -/
structure LocalStorage where
  items : List (String × Payload)
  setFails : Bool
deriving DecidableEq, Repr

/-- `localStorage.getItem(key)`: the payload stored under `key`, if any. -/
def getItem (ls : LocalStorage) (key : String) : Option Payload :=
  (ls.items.find? (fun kv => kv.1 = key)).map (fun kv => kv.2)

/-- The store obtained by writing `v` under `key`. -/
def storeWrite (ls : LocalStorage) (key : String) (v : Payload) : LocalStorage :=
  { ls with items := (key, v) :: ls.items.filter (fun kv => kv.1 ≠ key) }

/-- `localStorage.setItem(key, v)`: throws when storage is disabled/full. -/
def setItem (ls : LocalStorage) (key : String) (v : Payload) : Except String LocalStorage :=
  if ls.setFails then .error "QuotaExceededError" else .ok (storeWrite ls key v)

/-- The storage key used by the localStorage helpers in `main.js`:
`useMockData ? 'mock_favorites' : 'favorites_' + userId`. -/
def favKey (useMockData : Bool) (userId : String) : String :=
  if useMockData then "mock_favorites" else "favorites_" ++ userId

/-- `getLocalFavorites(userId)` from `main.js`:
`JSON.parse(localStorage.getItem(key) || '[]')`.  An absent or empty
payload yields `[]`; malformed JSON makes `JSON.parse` throw. -/
def getLocalFavorites (useMockData : Bool) (ls : LocalStorage) (userId : String) :
    Except String (List Int) :=
  match getItem ls (favKey useMockData userId) with
  | none => .ok []
  | some .empty => .ok []
  | some (.good xs) => .ok xs
  | some .bad => .error "SyntaxError"

/-- `setLocalFavorites(userId, favorites)` from `main.js`:
`localStorage.setItem(key, JSON.stringify(favorites))`. -/
def setLocalFavorites (useMockData : Bool) (ls : LocalStorage) (userId : String)
    (favorites : List Int) : Except String LocalStorage :=
  setItem ls (favKey useMockData userId) (.good favorites)

/-- `addLocalFavorite(userId, quoteId)` from `main.js`: push the id and
persist when it is not already present; returns whether it was added. -/
def addLocalFavorite (useMockData : Bool) (ls : LocalStorage) (userId : String)
    (quoteId : Int) : Except String (Bool × LocalStorage) :=
  match getLocalFavorites useMockData ls userId with
  | .error e => .error e
  | .ok favorites =>
    if quoteId ∈ favorites then
      .ok (false, ls)
    else
      match setLocalFavorites useMockData ls userId (favorites ++ [quoteId]) with
      | .error e => .error e
      | .ok ls2 => .ok (true, ls2)

/-- `removeLocalFavorite(userId, quoteId)` from `main.js`: `indexOf` then
`splice` (removes the first occurrence); returns whether it was present. -/
def removeLocalFavorite (useMockData : Bool) (ls : LocalStorage) (userId : String)
    (quoteId : Int) : Except String (Bool × LocalStorage) :=
  match getLocalFavorites useMockData ls userId with
  | .error e => .error e
  | .ok favorites =>
    if quoteId ∈ favorites then
      match setLocalFavorites useMockData ls userId (favorites.erase quoteId) with
      | .error e => .error e
      | .ok ls2 => .ok (true, ls2)
    else
      .ok (false, ls)

/-- `isLocalFavorite(userId, quoteId)` from `main.js`. -/
def isLocalFavorite (useMockData : Bool) (ls : LocalStorage) (userId : String)
    (quoteId : Int) : Except String Bool :=
  match getLocalFavorites useMockData ls userId with
  | .error e => .error e
  | .ok favorites => .ok (favorites.contains quoteId)

/-- The remote side for one fixed principal: the `user_favorites` rows
(`db`) and a script deciding, per successive remote call, whether that
call fails with a RemoteError (exhausted script = every call succeeds). -/
structure RemoteEnv where
  db : List Int
  script : List Bool
deriving DecidableEq, Repr

/-- Consume the next scripted outcome: `true` means this call fails. -/
def nextOutcome (env : RemoteEnv) : Bool × RemoteEnv :=
  match env.script with
  | [] => (false, env)
  | b :: rest => (b, { env with script := rest })

/-- SQL body of `add_favorite` in `complete_setup_final.sql`:
`INSERT ... ON CONFLICT (user_id, quote_id) DO NOTHING` — succeeds and
does nothing when the row already exists. -/
def sqlAddFavorite (db : List Int) (q : Int) : List Int :=
  if q ∈ db then db else db ++ [q]

/-- SQL body of `remove_favorite`: `DELETE FROM user_favorites WHERE ...`
removes every matching row. -/
def sqlRemoveFavorite (db : List Int) (q : Int) : List Int :=
  db.filter (fun x => x ≠ q)

/-- `supabase.rpc('add_favorite', ...)`: result is `(error?, env)`. -/
def rpcAddFavorite (env : RemoteEnv) (q : Int) : Bool × RemoteEnv :=
  let (fail, env1) := nextOutcome env
  if fail then (true, env1) else (false, { env1 with db := sqlAddFavorite env1.db q })

/-- `supabase.rpc('remove_favorite', ...)`: result is `(error?, env)`. -/
def rpcRemoveFavorite (env : RemoteEnv) (q : Int) : Bool × RemoteEnv :=
  let (fail, env1) := nextOutcome env
  if fail then (true, env1) else (false, { env1 with db := sqlRemoveFavorite env1.db q })

/-- `supabase.rpc('is_quote_favorited', ...)`: `(error?, data, env)`. -/
def rpcIsQuoteFavorited (env : RemoteEnv) (q : Int) : Bool × Bool × RemoteEnv :=
  let (fail, env1) := nextOutcome env
  if fail then (true, false, env1) else (false, env1.db.contains q, env1)

/-- `supabase.from('favorites').select('quote_id').eq('user_id', userId)`:
`(error?, rows, env)`. -/
def rpcSelectFavorites (env : RemoteEnv) : Bool × List Int × RemoteEnv :=
  let (fail, env1) := nextOutcome env
  if fail then (true, [], env1) else (false, env1.db, env1)

/-- The connectivity probe `supabase.from('quotes').select('id').limit(1)`
used by `attemptReconnect`: only its error matters. -/
def rpcProbe (env : RemoteEnv) : Bool × RemoteEnv :=
  nextOutcome env

/-- One entry of `pendingSyncActions`: `{ quoteId, action }` with action
the string `'add'` or `'remove'`. -/
structure PendingAction where
  quoteId : Int
  action : String
deriving DecidableEq, Repr

/-- The module-level mutable state of `main.js` relevant to favorites:
`useMockData`, `isInFallbackMode`, `pendingSyncActions`, `syncInProgress`
and the browser localStorage. -/
structure SyncState where
  useMockData : Bool
  isInFallbackMode : Bool
  pendingSyncActions : List PendingAction
  syncInProgress : Bool
  storage : LocalStorage
deriving DecidableEq, Repr

/-- The local-mutation block shared by the mock branch, the fallback
branch, the both-RPCs-failed branch and the catch block of
`toggleFavorite`: `wasRemoved = removeLocalFavorite(...)`,
`wasAdded = !wasRemoved`, `if (wasAdded) addLocalFavorite(...)`;
returns `wasAdded` and the updated storage. -/
def fallbackMutate (useMockData : Bool) (ls : LocalStorage) (userId : String)
    (quoteId : Int) : Except String (Bool × LocalStorage) :=
  match removeLocalFavorite useMockData ls userId quoteId with
  | .error e => .error e
  | .ok (wasRemoved, ls1) =>
    if wasRemoved then
      .ok (false, ls1)
    else
      match addLocalFavorite useMockData ls1 userId quoteId with
      | .error e => .error e
      | .ok (_, ls2) => .ok (true, ls2)

/-- The non-mock local fallback path of `toggleFavorite` (lines 275-288 and
both the both-RPCs-failed branch and the catch block of `main.js`): mutate
the local store, push `{ quoteId, action }` onto `pendingSyncActions`,
return `wasAdded`.  A thrown storage error leaves the state as given. -/
def toggleViaLocal (s : SyncState) (env : RemoteEnv) (userId : String) (quoteId : Int) :
    Except String Bool × SyncState × RemoteEnv :=
  match fallbackMutate false s.storage userId quoteId with
  | .error e => (.error e, s, env)
  | .ok (wasAdded, st) =>
      (.ok wasAdded,
       { s with storage := st,
                pendingSyncActions := s.pendingSyncActions ++
                  [{ quoteId := quoteId, action := if wasAdded then "add" else "remove" }] },
       env)

/-- `checkIfFavorited(quoteId)` from `main.js`.  Mock mode and fallback
mode read localStorage directly; online mode queries the
`is_quote_favorited` RPC and, on a remote error, enters fallback mode and
answers from localStorage. -/
def checkIfFavorited (s : SyncState) (env : RemoteEnv) (userId : String) (quoteId : Int) :
    Except String Bool × SyncState × RemoteEnv :=
  if s.useMockData then
    (isLocalFavorite true s.storage userId quoteId, s, env)
  else if s.isInFallbackMode then
    (isLocalFavorite false s.storage userId quoteId, s, env)
  else
    let (err, data, env1) := rpcIsQuoteFavorited env quoteId
    if err then
      let s1 : SyncState := { s with isInFallbackMode := true }
      (isLocalFavorite false s1.storage userId quoteId, s1, env1)
    else
      (.ok data, s, env1)

/-- `toggleFavorite(quoteId)` from `main.js`.  Mock mode toggles
localStorage only.  Fallback mode goes through `toggleViaLocal`.  Online
mode first calls the `add_favorite` RPC, on success mirrors the add into
localStorage and returns `true`; if `add` errored it calls
`remove_favorite`, on success mirrors the removal and returns `false`;
if both RPCs errored (or a localStorage call threw inside the `try`) it
sets `isInFallbackMode` and falls back to `toggleViaLocal`. -/
def toggleFavorite (s : SyncState) (env : RemoteEnv) (userId : String) (quoteId : Int) :
    Except String Bool × SyncState × RemoteEnv :=
  if s.useMockData then
    match fallbackMutate true s.storage userId quoteId with
    | .error e => (.error e, s, env)
    | .ok (wasAdded, st) => (.ok wasAdded, { s with storage := st }, env)
  else if s.isInFallbackMode then
    toggleViaLocal s env userId quoteId
  else
    let (addErr, env1) := rpcAddFavorite env quoteId
    if addErr = false then
      match addLocalFavorite false s.storage userId quoteId with
      | .error _ => toggleViaLocal { s with isInFallbackMode := true } env1 userId quoteId
      | .ok (_, st) => (.ok true, { s with storage := st }, env1)
    else
      let (removeErr, env2) := rpcRemoveFavorite env1 quoteId
      if removeErr = false then
        match removeLocalFavorite false s.storage userId quoteId with
        | .error _ => toggleViaLocal { s with isInFallbackMode := true } env2 userId quoteId
        | .ok (_, st) => (.ok false, { s with storage := st }, env2)
      else
        toggleViaLocal { s with isInFallbackMode := true } env2 userId quoteId

/-- The additions loop of `syncPendingActions`: for each locally stored id
absent from the database snapshot, call the `add_favorite` RPC; the
`{data, error}` result of each call is discarded by the source. -/
def syncAdditions (localFavs dbSnapshot : List Int) (env : RemoteEnv) : RemoteEnv :=
  localFavs.foldl (fun e q => if q ∈ dbSnapshot then e else (rpcAddFavorite e q).2) env

/-- The removals loop of `syncPendingActions`: for each id of the database
snapshot absent locally, call the `remove_favorite` RPC; the result of
each call is again discarded by the source. -/
def syncRemovals (localFavs dbSnapshot : List Int) (env : RemoteEnv) : RemoteEnv :=
  dbSnapshot.foldl (fun e q => if q ∈ localFavs then e else (rpcRemoveFavorite e q).2) env

/-- `syncPendingActions()` from `main.js`: no-op in mock mode or with an
empty queue; otherwise read the local set, select the remote rows
(throwing on a select error), run the two diff loops and clear
`pendingSyncActions`. -/
def syncPendingActions (s : SyncState) (env : RemoteEnv) (userId : String) :
    Except String Unit × SyncState × RemoteEnv :=
  if s.useMockData || s.pendingSyncActions.isEmpty then (.ok (), s, env)
  else
    match getLocalFavorites false s.storage userId with
    | .error e => (.error e, s, env)
    | .ok localFavs =>
      let (selErr, dbFavIds, env1) := rpcSelectFavorites env
      if selErr then (.error "SelectError", s, env1)
      else
        let env2 := syncAdditions localFavs dbFavIds env1
        let env3 := syncRemovals localFavs dbFavIds env2
        (.ok (), { s with pendingSyncActions := [] }, env3)

/-- `attemptReconnect()` from `main.js`: ignored in mock mode or while a
sync is in progress; otherwise set `syncInProgress`, probe connectivity,
on probe success run `syncPendingActions` and clear `isInFallbackMode`
only when it did not throw; the `finally` releases `syncInProgress` on
every path. -/
def attemptReconnect (s : SyncState) (env : RemoteEnv) (userId : String) :
    SyncState × RemoteEnv :=
  if s.useMockData || s.syncInProgress then (s, env)
  else
    let s1 : SyncState := { s with syncInProgress := true }
    let (probeErr, env1) := rpcProbe env
    if probeErr then
      ({ s1 with syncInProgress := false }, env1)
    else
      match syncPendingActions s1 env1 userId with
      | (.ok _, s2, env2) =>
          ({ s2 with isInFallbackMode := false, syncInProgress := false }, env2)
      | (.error _, s2, env2) =>
          ({ s2 with syncInProgress := false }, env2)

/-- The persisted anonymous identifier slot of `user-utils.js`
(key `inspireme_user_id` in localStorage; values are plain strings). -/
structure IdStore where
  stored : Option String
deriving DecidableEq, Repr

/-- The identifier generated by `getUserId` when none is persisted:
`user_` + timestamp + `_` + random suffix (the randomness source is
abstracted into the `randomSuffix` parameter). -/
def mkUserId (timestamp : Nat) (randomSuffix : String) : String :=
  "user_" ++ toString timestamp ++ "_" ++ randomSuffix

/-- `getUserId()` from `user-utils.js`: return the persisted identifier if
it is truthy (non-null and non-empty), otherwise generate, persist and
return a fresh one. -/
def getUserId (st : IdStore) (timestamp : Nat) (randomSuffix : String) :
    String × IdStore :=
  match st.stored with
  | some id =>
      if id = "" then
        let newId := mkUserId timestamp randomSuffix
        (newId, { stored := some newId })
      else
        (id, st)
  | none =>
      let newId := mkUserId timestamp randomSuffix
      (newId, { stored := some newId })

/-- The favorite operations a user can drive from the UI while browsing
(the synchronizer entry points), plus arbitrary environment changes
(remote weather / other clients) between operations. -/
inductive FavOp
  | toggle (userId : String) (quoteId : Int)
  | check (userId : String) (quoteId : Int)
  | envChange (env2 : RemoteEnv)

/-- Apply one favorite operation to the module state. -/
def applyOp (c : SyncState × RemoteEnv) (op : FavOp) : SyncState × RemoteEnv :=
  match op with
  | .toggle u q => let r := toggleFavorite c.1 c.2 u q; (r.2.1, r.2.2)
  | .check u q => let r := checkIfFavorited c.1 c.2 u q; (r.2.1, r.2.2)
  | .envChange e2 => (c.1, e2)

/-- Run a sequence of favorite operations. -/
def runOps (c : SyncState × RemoteEnv) (ops : List FavOp) : SyncState × RemoteEnv :=
  ops.foldl applyOp c

/-- The module state at startup: not degraded, empty queue, no sync in
progress; storage contents are arbitrary. -/
def initState (useMockData : Bool) (storage : LocalStorage) : SyncState :=
  { useMockData := useMockData, isInFallbackMode := false, pendingSyncActions := [],
    syncInProgress := false, storage := storage }

/-! ### Concrete fixtures used by the evaluation theorems -/

/-- A fresh, healthy localStorage. -/
def emptyStore : LocalStorage := { items := [], setFails := false }

/-- A healthy remote for a principal with no favorites: empty table, every
call succeeds. -/
def healthyRemote : RemoteEnv := { db := [], script := [] }

/-- A degraded session that favorited quote 42 locally while offline:
fallback mode, one queued add, the local set is `[42]`, the remote table
is still empty. -/
def degradedSession : SyncState :=
  { useMockData := false
    isInFallbackMode := true
    pendingSyncActions := [{ quoteId := 42, action := "add" }]
    syncInProgress := false
    storage := { items := [("favorites_u", Payload.good [42])], setFails := false } }

/-- A remote whose next three calls go: probe succeeds, favorites select
succeeds, and the following RPC fails with a RemoteError. -/
def thirdCallFails : RemoteEnv := { db := [], script := [false, false, true] }

/-- A localStorage whose favorites payload for principal `u` is malformed
JSON. -/
def corruptStore : LocalStorage :=
  { items := [("favorites_u", Payload.bad)], setFails := false }

/-- A full/disabled localStorage holding an empty favorites list. -/
def fullEmptyStore : LocalStorage :=
  { items := [("favorites_u", Payload.good [])], setFails := true }

/-- A full/disabled localStorage holding `[7]` for principal `u`. -/
def fullStoreWith7 : LocalStorage :=
  { items := [("favorites_u", Payload.good [7])], setFails := true }

/-! ### Claim theorems -/

/-- C1: FALSIFIED ON THE CODE.  With the repository's own remote
procedures (`add_favorite` is an idempotent upsert that never errors on
an existing row), the online `toggleFavorite` can never take the remove
branch: starting from empty local and remote sets, two consecutive
toggles of quote 42 both return `true` and leave the membership at
`{42}` instead of restoring the original empty membership — the second
toggle does not flip it back. -/
theorem toggle_online_twice_keeps_membership :
    (toggleFavorite (initState false emptyStore) healthyRemote "u" 42).1 = .ok true ∧
    (toggleFavorite (initState false emptyStore) healthyRemote "u" 42).2.2.db = [42] ∧
    (let r1 := toggleFavorite (initState false emptyStore) healthyRemote "u" 42
     let r2 := toggleFavorite r1.2.1 r1.2.2 "u" 42
     r2.1 = .ok true ∧ r2.2.2.db = [42] ∧
       getLocalFavorites false r2.2.1.storage "u" = .ok [42]) ∧
    healthyRemote.db = [] := by
  exact ⟨rfl, rfl, ⟨rfl, rfl, rfl⟩, rfl⟩

/-- C2: FALSIFIED ON THE CODE.  `syncPendingActions` never inspects the
`{data, error}` results of the `add_favorite`/`remove_favorite` calls in
its two replay loops, so when the `add_favorite` call for the queued
quote 42 fails, reconciliation still "succeeds": `pendingSyncActions`
is cleared, `attemptReconnect` sets `isInFallbackMode := false`, and the
locally favorited quote 42 never reaches the remote table. -/
theorem failed_replay_call_still_clears_queue :
    (attemptReconnect degradedSession thirdCallFails "u").1.isInFallbackMode = false ∧
    (attemptReconnect degradedSession thirdCallFails "u").1.pendingSyncActions = [] ∧
    (attemptReconnect degradedSession thirdCallFails "u").2.db = [] ∧
    getLocalFavorites false
      (attemptReconnect degradedSession thirdCallFails "u").1.storage "u" = .ok [42] := by
  exact ⟨rfl, rfl, rfl, rfl⟩

/-- C4: FALSIFIED ON THE CODE.  The localStorage helpers have no
try/catch: `getLocalFavorites` lets the `JSON.parse` exception of a
malformed payload escape instead of returning the empty set, and
`addLocalFavorite`/`removeLocalFavorite` let a full/disabled storage's
`setItem` exception escape instead of degrading to a no-op. -/
theorem local_store_operations_can_throw :
    getLocalFavorites false corruptStore "u" = .error "SyntaxError" ∧
    isLocalFavorite false corruptStore "u" 42 = .error "SyntaxError" ∧
    addLocalFavorite false fullEmptyStore "u" 7 = .error "QuotaExceededError" ∧
    removeLocalFavorite false fullStoreWith7 "u" 7 = .error "QuotaExceededError" := by
  exact ⟨rfl, rfl, rfl, rfl⟩

/-- C3 counterexample: reconciliation run with an empty pending queue but
divergent sets (local `{42}`, remote `{}`) completes without any remote
error and yet leaves the remote set different from the local set —
`syncPendingActions` returns immediately when `pendingSyncActions` is
empty. -/
theorem empty_queue_reconciliation_skips_divergence :
    syncPendingActions { degradedSession with pendingSyncActions := [] }
        healthyRemote "u"
      = (.ok (), { degradedSession with pendingSyncActions := [] }, healthyRemote) ∧
    getLocalFavorites false degradedSession.storage "u" = .ok [42] ∧
    (42 : Int) ∉ healthyRemote.db := by
  refine ⟨rfl, rfl, ?_⟩
  decide

/-- A generated identifier is never the empty string, hence never falsy:
once persisted it survives the truthiness check of later calls. -/
theorem mkUserId_ne_empty (t : Nat) (r : String) : mkUserId t r ≠ "" := by
  intro h
  have h2 := congrArg String.length h
  simp [mkUserId, String.length_append] at h2
  exact absurd h2.1.1.1 (by decide)

/-- C9: `getUserId` is idempotent within a browser profile.  A persisted
(non-empty) identifier is returned unchanged with the store untouched; an
absent identifier leads to a fresh `user_<timestamp>_<random>` being
generated, persisted and returned; and whatever the starting store, a
second call returns exactly the result of the first and changes nothing,
so the identifier never changes once generated. -/
theorem getUserId_idempotent :
    (∀ st id t r, st.stored = some id → id ≠ "" → getUserId st t r = (id, st)) ∧
    (∀ t r, getUserId { stored := none } t r
        = (mkUserId t r, { stored := some (mkUserId t r) })) ∧
    (∀ st t1 r1 t2 r2, getUserId (getUserId st t1 r1).2 t2 r2 = getUserId st t1 r1) := by
  refine ⟨?_, ?_, ?_⟩
  · intro st id t r hst hid
    rcases st with ⟨stored⟩
    cases hst
    simp [getUserId, hid]
  · intro t r
    simp [getUserId]
  · intro st t1 r1 t2 r2
    rcases st with ⟨stored⟩
    cases stored with
    | none => simp [getUserId, mkUserId_ne_empty t1 r1]
    | some id =>
      by_cases hid : id = ""
      · simp [getUserId, hid, mkUserId_ne_empty t1 r1]
      · simp [getUserId, hid]

/-- C9 witness: a concrete profile with identifier `user_5_ab` persisted
keeps it across calls, and a fresh profile generates and persists one. -/
theorem getUserId_idempotent_witness :
    (({ stored := some "user_5_ab" } : IdStore).stored = some "user_5_ab" ∧
      "user_5_ab" ≠ "" ∧
      getUserId { stored := some "user_5_ab" } 9 "cd"
        = ("user_5_ab", { stored := some "user_5_ab" })) ∧
    getUserId { stored := none } 5 "ab"
      = (mkUserId 5 "ab", { stored := some (mkUserId 5 "ab") }) ∧
    getUserId (getUserId { stored := none } 5 "ab").2 9 "cd"
      = getUserId { stored := none } 5 "ab" := by
  refine ⟨⟨rfl, by decide, ?_⟩, getUserId_idempotent.2.1 5 "ab",
    getUserId_idempotent.2.2 { stored := none } 5 "ab" 9 "cd"⟩
  exact getUserId_idempotent.1 { stored := some "user_5_ab" } "user_5_ab" 9 "cd" rfl
    (by decide)

/-- C10: in mock mode every localStorage favorites helper uses the single
fixed key `mock_favorites` and is entirely independent of the principal
argument, so all principals share one favorite set; outside mock mode the
key is `favorites_<principalId>`. -/
theorem mock_mode_uses_shared_key :
    (∀ u, favKey true u = "mock_favorites") ∧
    (∀ u, favKey false u = "favorites_" ++ u) ∧
    (∀ ls u1 u2, getLocalFavorites true ls u1 = getLocalFavorites true ls u2) ∧
    (∀ ls u1 u2 favs, setLocalFavorites true ls u1 favs = setLocalFavorites true ls u2 favs) ∧
    (∀ ls u1 u2 q, addLocalFavorite true ls u1 q = addLocalFavorite true ls u2 q) ∧
    (∀ ls u1 u2 q, removeLocalFavorite true ls u1 q = removeLocalFavorite true ls u2 q) ∧
    (∀ ls u1 u2 q, isLocalFavorite true ls u1 q = isLocalFavorite true ls u2 q) := by
  refine ⟨fun _ => rfl, fun _ => rfl, fun _ _ _ => rfl, fun _ _ _ _ => rfl,
    fun _ _ _ _ => rfl, fun _ _ _ _ => rfl, fun _ _ _ _ => rfl⟩

/-- C8: replay is serialized and the guard flag is always released.  A
reconnect attempt invoked while `syncInProgress` is already set returns
immediately with nothing changed (no probe, no reconciliation, no remote
call: state and remote environment are exactly as before), and an attempt
that actually runs ends with `syncInProgress = false` on every path —
probe failure, reconciliation throw, or full success. -/
theorem reconnect_is_serialized (s : SyncState) (env : RemoteEnv) (u : String) :
    (s.syncInProgress = true → attemptReconnect s env u = (s, env)) ∧
    (s.syncInProgress = false → (attemptReconnect s env u).1.syncInProgress = false) := by
  constructor
  · intro h
    simp [attemptReconnect, h]
  · intro h
    by_cases hm : s.useMockData
    · simp [attemptReconnect, hm, h]
    · rcases hp : rpcProbe env with ⟨pe, e1⟩
      simp only [attemptReconnect, hm, h, Bool.or_self, Bool.false_eq_true, if_false, hp]
      cases pe
      · simp only [Bool.false_eq_true, if_false]
        split <;> simp
      · simp

/-- C8 witness: with a sync already in flight the attempt is a no-op, and
a run from an idle degraded session releases the flag. -/
theorem reconnect_is_serialized_witness :
    ({ degradedSession with syncInProgress := true } : SyncState).syncInProgress = true ∧
    attemptReconnect { degradedSession with syncInProgress := true } healthyRemote "u"
      = ({ degradedSession with syncInProgress := true }, healthyRemote) ∧
    degradedSession.syncInProgress = false ∧
    (attemptReconnect degradedSession healthyRemote "u").1.syncInProgress = false := by
  exact ⟨rfl,
    (reconnect_is_serialized { degradedSession with syncInProgress := true }
      healthyRemote "u").1 rfl,
    rfl,
    (reconnect_is_serialized degradedSession healthyRemote "u").2 rfl⟩

/-- Reading a key right after writing it returns the written payload. -/
theorem getItem_storeWrite_same (ls : LocalStorage) (k : String) (v : Payload) :
    getItem (storeWrite ls k v) k = some v := by
  simp [getItem, storeWrite, List.find?]

/-- `getLocalFavorites` right after `setLocalFavorites` (modelled by
`storeWrite` of a well-formed payload) returns the stored list. -/
theorem getLocalFavorites_storeWrite (m : Bool) (ls : LocalStorage) (u : String)
    (xs : List Int) :
    getLocalFavorites m (storeWrite ls (favKey m u) (.good xs)) u = .ok xs := by
  simp [getLocalFavorites, getItem_storeWrite_same]

/-- C7: the Local Favorite Store is idempotent with the advertised return
values.  On a store whose payload parses to a duplicate-free list `favs`
and whose storage is writable, `addLocalFavorite` returns `true` exactly
when the item was newly added, a second identical add returns `false` and
leaves the store exactly as after the first, and symmetrically for
`removeLocalFavorite` (`true` exactly when the item was present, the
second call a no-op), so calling either twice yields the same membership
as calling it once. -/
theorem local_add_remove_idempotent (m : Bool) (ls : LocalStorage) (u : String) (q : Int)
    (favs : List Int) (hget : getLocalFavorites m ls u = .ok favs)
    (hsf : ls.setFails = false) (hnd : favs.Nodup) :
    (∃ ls1, addLocalFavorite m ls u q = .ok (!favs.contains q, ls1) ∧
        addLocalFavorite m ls1 u q = .ok (false, ls1)) ∧
    (∃ ls2, removeLocalFavorite m ls u q = .ok (favs.contains q, ls2) ∧
        removeLocalFavorite m ls2 u q = .ok (false, ls2)) := by
  constructor
  · by_cases hq : q ∈ favs
    · refine ⟨ls, ?_, ?_⟩ <;> simp [addLocalFavorite, hget, hq]
    · refine ⟨storeWrite ls (favKey m u) (.good (favs ++ [q])), ?_, ?_⟩
      · simp [addLocalFavorite, hget, hq, setLocalFavorites, setItem, hsf]
      · simp [addLocalFavorite, getLocalFavorites_storeWrite]
  · by_cases hq : q ∈ favs
    · refine ⟨storeWrite ls (favKey m u) (.good (favs.erase q)), ?_, ?_⟩
      · simp [removeLocalFavorite, hget, hq, setLocalFavorites, setItem, hsf]
      · simp [removeLocalFavorite, getLocalFavorites_storeWrite, hnd.not_mem_erase]
    · refine ⟨ls, ?_, ?_⟩ <;> simp [removeLocalFavorite, hget, hq]

/-- A healthy store holding `[5]` for principal `u`. -/
def storeWith5 : LocalStorage :=
  { items := [("favorites_u", Payload.good [5])], setFails := false }

/-- C7 witness: on the concrete store holding `[5]`, adding 7 then
re-adding it keeps one copy and the second call reports `false`; removing
7 reports `false` and leaves the store unchanged. -/
theorem local_add_remove_idempotent_witness :
    (getLocalFavorites false storeWith5 "u" = .ok [5] ∧
      storeWith5.setFails = false ∧
      ([5] : List Int).Nodup) ∧
    ((∃ ls1, addLocalFavorite false storeWith5 "u" 7
          = .ok (!([5] : List Int).contains 7, ls1) ∧
        addLocalFavorite false ls1 "u" 7 = .ok (false, ls1)) ∧
      (∃ ls2, removeLocalFavorite false storeWith5 "u" 7
          = .ok (([5] : List Int).contains 7, ls2) ∧
        removeLocalFavorite false ls2 "u" 7 = .ok (false, ls2))) := by
  exact ⟨⟨rfl, rfl, by decide⟩,
    local_add_remove_idempotent false storeWith5 "u" 7 [5] rfl rfl (by decide)⟩

/-- On a readable, writable store the fallback mutation block flips the
local membership of `q`: it returns `wasAdded = true` and appends `q`
when `q` was absent, and returns `false` and erases `q` when present. -/
theorem fallbackMutate_spec (m : Bool) (ls : LocalStorage) (u : String) (q : Int)
    (favs : List Int) (hget : getLocalFavorites m ls u = .ok favs)
    (hsf : ls.setFails = false) :
    fallbackMutate m ls u q
      = .ok (!favs.contains q,
          storeWrite ls (favKey m u)
            (.good (if q ∈ favs then favs.erase q else favs ++ [q]))) := by
  by_cases hq : q ∈ favs <;>
    simp [fallbackMutate, removeLocalFavorite, addLocalFavorite, hget, hq,
      setLocalFavorites, setItem, hsf]

/-- The state `toggleFavorite` leaves behind when it falls back to the
local store: fallback mode on, the new favorites list persisted, and one
`{ quoteId, action }` entry appended to the queue. -/
def degradedAfter (s : SyncState) (u : String) (q : Int) (newFavs : List Int)
    (wasAdded : Bool) : SyncState :=
  { s with isInFallbackMode := true
           storage := storeWrite s.storage (favKey false u) (.good newFavs)
           pendingSyncActions := s.pendingSyncActions ++
             [{ quoteId := q, action := if wasAdded then "add" else "remove" }] }

/-- C6: unexpected remote failure while online degrades gracefully.  If
both favorite RPCs of an online toggle return errors, `toggleFavorite`
sets `isInFallbackMode`, flips the membership in the Local Store, appends
exactly one `{ quoteId, action }` entry to `pendingSyncActions`, and
returns the new local membership as an ordinary value (no thrown error);
the remote table is untouched.  In the resulting state the item remains
queryable through `checkIfFavorited`, which answers from the Local Store.
Likewise an online `checkIfFavorited` whose RPC errors enters fallback
mode and returns the local membership without throwing. -/
theorem remote_failure_enters_fallback (s : SyncState) (env : RemoteEnv) (u : String)
    (q : Int) (rest : List Bool) (favs : List Int)
    (hm : s.useMockData = false) (hf : s.isInFallbackMode = false)
    (hscript : env.script = true :: true :: rest)
    (hget : getLocalFavorites false s.storage u = .ok favs)
    (hsf : s.storage.setFails = false) (hnd : favs.Nodup) :
    toggleFavorite s env u q
      = (.ok (!favs.contains q),
         degradedAfter s u q (if q ∈ favs then favs.erase q else favs ++ [q])
           (!favs.contains q),
         { db := env.db, script := rest }) ∧
    checkIfFavorited
        (degradedAfter s u q (if q ∈ favs then favs.erase q else favs ++ [q])
          (!favs.contains q))
        { db := env.db, script := rest } u q
      = (.ok ((if q ∈ favs then favs.erase q else favs ++ [q]).contains q),
         degradedAfter s u q (if q ∈ favs then favs.erase q else favs ++ [q])
           (!favs.contains q),
         { db := env.db, script := rest }) ∧
    ((if q ∈ favs then favs.erase q else favs ++ [q]).contains q = !favs.contains q) ∧
    (∀ env3 rest3, env3.script = true :: rest3 →
      checkIfFavorited s env3 u q
        = (.ok (favs.contains q), { s with isInFallbackMode := true },
           { db := env3.db, script := rest3 })) := by
  rcases env with ⟨db, script⟩
  simp only at hscript
  subst hscript
  have hfm := fallbackMutate_spec false s.storage u q favs hget hsf
  refine ⟨?_, ?_, ?_, ?_⟩
  · simp [toggleFavorite, hm, hf, rpcAddFavorite, rpcRemoveFavorite, nextOutcome,
      toggleViaLocal, hfm, degradedAfter]
  · simp [checkIfFavorited, degradedAfter, hm, isLocalFavorite,
      getLocalFavorites_storeWrite]
  · by_cases hq : q ∈ favs <;> simp [hq, hnd.not_mem_erase]
  · intro env3 rest3 h3
    rcases env3 with ⟨db3, script3⟩
    simp only at h3
    subst h3
    simp [checkIfFavorited, hm, hf, rpcIsQuoteFavorited, nextOutcome, isLocalFavorite,
      hget]

/-- C6 witness: a fresh online session with local set `[5]`, a remote
holding `[9]` that fails its next two calls, toggling quote 7: the result
is `true` (favorited locally), fallback mode, one queued add, remote
unchanged. -/
theorem remote_failure_enters_fallback_witness :
    toggleFavorite (initState false storeWith5) { db := [9], script := [true, true] } "u" 7
      = (.ok (!([5] : List Int).contains 7),
         degradedAfter (initState false storeWith5) "u" 7
           (if (7 : Int) ∈ ([5] : List Int) then ([5] : List Int).erase 7
            else ([5] : List Int) ++ [7])
           (!([5] : List Int).contains 7),
         { db := [9], script := [] }) := by
  exact (remote_failure_enters_fallback (initState false storeWith5)
    { db := [9], script := [true, true] } "u" 7 [] [5]
    rfl rfl rfl rfl rfl (by decide)).1

/-- One favorite operation in mock mode never leaves mock mode and never
sets the fallback flag: mock toggles and checks touch only the storage. -/
theorem applyOp_mock_inv (c : SyncState × RemoteEnv) (op : FavOp)
    (hm : c.1.useMockData = true) (hf : c.1.isInFallbackMode = false) :
    ((applyOp c op).1).useMockData = true ∧
      ((applyOp c op).1).isInFallbackMode = false := by
  cases op with
  | toggle u q =>
    rcases hfm : fallbackMutate true c.1.storage u q with e | ⟨wa, st⟩ <;>
      simp [applyOp, toggleFavorite, hm, hfm, hf]
  | check u q => simp [applyOp, checkIfFavorited, hm, hf]
  | envChange e2 => exact ⟨hm, hf⟩

/-- Runs of favorite operations preserve the mock invariant. -/
theorem runOps_mock_inv (ops : List FavOp) (c : SyncState × RemoteEnv)
    (hm : c.1.useMockData = true) (hf : c.1.isInFallbackMode = false) :
    ((runOps c ops).1).useMockData = true ∧
      ((runOps c ops).1).isInFallbackMode = false := by
  induction ops generalizing c with
  | nil => exact ⟨hm, hf⟩
  | cons op rest ih =>
    have h := applyOp_mock_inv c op hm hf
    simpa [runOps, List.foldl] using ih (applyOp c op) h.1 h.2

/-- C5: while degraded, favorites are local-only.  First, a mock-mode run
of favorite operations never sets the fallback flag, so the degraded
regime only concerns non-mock sessions.  In a degraded non-mock state:
`checkIfFavorited` answers from the Local Store and changes neither the
state nor the remote environment; `toggleFavorite` never touches the
remote environment (no remote call is attempted inline); its queue only
ever grows by appending; and on a successful local mutation it appends
exactly one `{ quoteId, action }` entry to `pendingSyncActions` and
returns the new local state. -/
theorem degraded_mode_is_local_only :
    (∀ st env0 ops,
        ((runOps (initState true st, env0) ops).1).isInFallbackMode = false) ∧
    (∀ s env u q, s.isInFallbackMode = true → s.useMockData = false →
      checkIfFavorited s env u q = (isLocalFavorite false s.storage u q, s, env) ∧
      (toggleFavorite s env u q).2.2 = env ∧
      (∃ extra, (toggleFavorite s env u q).2.1.pendingSyncActions
          = s.pendingSyncActions ++ extra) ∧
      (∀ wa st2, fallbackMutate false s.storage u q = .ok (wa, st2) →
        toggleFavorite s env u q
          = (.ok wa,
             { s with storage := st2
                      pendingSyncActions := s.pendingSyncActions ++
                        [{ quoteId := q, action := if wa then "add" else "remove" }] },
             env))) := by
  constructor
  · intro st env0 ops
    exact (runOps_mock_inv ops (initState true st, env0) rfl rfl).2
  · intro s env u q hf hm
    refine ⟨?_, ?_, ?_, ?_⟩
    · simp [checkIfFavorited, hm, hf]
    · rcases hfm : fallbackMutate false s.storage u q with e | ⟨wa, st2⟩ <;>
        simp [toggleFavorite, hm, hf, toggleViaLocal, hfm]
    · rcases hfm : fallbackMutate false s.storage u q with e | ⟨wa, st2⟩
      · exact ⟨[], by simp [toggleFavorite, hm, hf, toggleViaLocal, hfm]⟩
      · exact ⟨[{ quoteId := q, action := if wa then "add" else "remove" }],
          by simp [toggleFavorite, hm, hf, toggleViaLocal, hfm]⟩
    · intro wa st2 hfm
      simp [toggleFavorite, hm, hf, toggleViaLocal, hfm]

/-- C5 witness: in the concrete degraded session, a check reads only the
local store and a toggle leaves the remote untouched while appending to
the queue. -/
theorem degraded_mode_is_local_only_witness :
    checkIfFavorited degradedSession healthyRemote "u" 7
      = (isLocalFavorite false degradedSession.storage "u" 7, degradedSession,
         healthyRemote) ∧
    (toggleFavorite degradedSession healthyRemote "u" 7).2.2 = healthyRemote ∧
    (∃ extra, (toggleFavorite degradedSession healthyRemote "u" 7).2.1.pendingSyncActions
        = degradedSession.pendingSyncActions ++ extra) := by
  have h := degraded_mode_is_local_only.2 degradedSession healthyRemote "u" 7 rfl rfl
  exact ⟨h.1, h.2.1, h.2.2.1⟩

/-- Membership after the `add_favorite` upsert. -/
theorem mem_sqlAddFavorite (db : List Int) (q x : Int) :
    x ∈ sqlAddFavorite db q ↔ x ∈ db ∨ x = q := by
  by_cases h : q ∈ db
  · simp only [sqlAddFavorite, if_pos h]
    constructor
    · exact Or.inl
    · rintro (hx | rfl)
      · exact hx
      · exact h
  · simp [sqlAddFavorite, h]

/-- Membership after the `remove_favorite` delete. -/
theorem mem_sqlRemoveFavorite (db : List Int) (q x : Int) :
    x ∈ sqlRemoveFavorite db q ↔ x ∈ db ∧ x ≠ q := by
  simp [sqlRemoveFavorite]

/-- Unfolding one step of the additions loop. -/
theorem syncAdditions_cons (q : Int) (rest snap : List Int) (env : RemoteEnv) :
    syncAdditions (q :: rest) snap env
      = syncAdditions rest snap (if q ∈ snap then env else (rpcAddFavorite env q).2) := rfl

/-- Unfolding one step of the removals loop. -/
theorem syncRemovals_cons (l : List Int) (q : Int) (rest : List Int) (env : RemoteEnv) :
    syncRemovals l (q :: rest) env
      = syncRemovals l rest (if q ∈ l then env else (rpcRemoveFavorite env q).2) := rfl

/-- With no scripted failures, `add_favorite` applies its SQL semantics. -/
theorem rpcAddFavorite_nil (env : RemoteEnv) (q : Int) (h : env.script = []) :
    (rpcAddFavorite env q).2 = { db := sqlAddFavorite env.db q, script := [] } := by
  rcases env with ⟨db, script⟩
  simp only at h
  subst h
  rfl

/-- With no scripted failures, `remove_favorite` applies its SQL
semantics. -/
theorem rpcRemoveFavorite_nil (env : RemoteEnv) (q : Int) (h : env.script = []) :
    (rpcRemoveFavorite env q).2 = { db := sqlRemoveFavorite env.db q, script := [] } := by
  rcases env with ⟨db, script⟩
  simp only at h
  subst h
  rfl

/-- A fully successful additions loop adds exactly the locally stored
ids missing from the snapshot. -/
theorem syncAdditions_nil_spec (l snap : List Int) (env : RemoteEnv)
    (h : env.script = []) :
    (syncAdditions l snap env).script = [] ∧
    ∀ x, (x ∈ (syncAdditions l snap env).db ↔ x ∈ env.db ∨ (x ∈ l ∧ x ∉ snap)) := by
  induction l generalizing env with
  | nil => simpa [syncAdditions] using h
  | cons q rest ih =>
    rw [syncAdditions_cons]
    by_cases hq : q ∈ snap
    · rw [if_pos hq]
      have hrec := ih env h
      refine ⟨hrec.1, fun x => ?_⟩
      rw [hrec.2 x, List.mem_cons]
      constructor
      · rintro (h1 | ⟨h2, h3⟩)
        · exact Or.inl h1
        · exact Or.inr ⟨Or.inr h2, h3⟩
      · rintro (h1 | ⟨h2 | h3, h4⟩)
        · exact Or.inl h1
        · exact absurd hq (h2 ▸ h4)
        · exact Or.inr ⟨h3, h4⟩
    · rw [if_neg hq]
      have henv2 := rpcAddFavorite_nil env q h
      have hrec := ih (rpcAddFavorite env q).2 (by rw [henv2])
      refine ⟨hrec.1, fun x => ?_⟩
      rw [hrec.2 x, henv2]
      simp only [mem_sqlAddFavorite, List.mem_cons]
      constructor
      · rintro ((h1 | rfl) | ⟨h2, h3⟩)
        · exact Or.inl h1
        · exact Or.inr ⟨Or.inl rfl, hq⟩
        · exact Or.inr ⟨Or.inr h2, h3⟩
      · rintro (h1 | ⟨h2 | h3, h4⟩)
        · exact Or.inl (Or.inl h1)
        · exact Or.inl (Or.inr h2)
        · exact Or.inr ⟨h3, h4⟩

/-- A fully successful removals loop deletes exactly the snapshot ids
missing locally. -/
theorem syncRemovals_nil_spec (l snap : List Int) (env : RemoteEnv)
    (h : env.script = []) :
    (syncRemovals l snap env).script = [] ∧
    ∀ x, (x ∈ (syncRemovals l snap env).db ↔ x ∈ env.db ∧ ¬(x ∈ snap ∧ x ∉ l)) := by
  induction snap generalizing env with
  | nil => simpa [syncRemovals] using h
  | cons q rest ih =>
    rw [syncRemovals_cons]
    by_cases hq : q ∈ l
    · rw [if_pos hq]
      have hrec := ih env h
      refine ⟨hrec.1, fun x => ?_⟩
      rw [hrec.2 x, List.mem_cons]
      constructor
      · rintro ⟨h1, h2⟩
        refine ⟨h1, ?_⟩
        rintro ⟨(rfl | h3), h4⟩
        · exact h4 hq
        · exact h2 ⟨h3, h4⟩
      · rintro ⟨h1, h2⟩
        refine ⟨h1, ?_⟩
        rintro ⟨h3, h4⟩
        exact h2 ⟨Or.inr h3, h4⟩
    · rw [if_neg hq]
      have henv2 := rpcRemoveFavorite_nil env q h
      have hrec := ih (rpcRemoveFavorite env q).2 (by rw [henv2])
      refine ⟨hrec.1, fun x => ?_⟩
      rw [hrec.2 x, henv2]
      simp only [mem_sqlRemoveFavorite, List.mem_cons]
      constructor
      · rintro ⟨⟨h1, h2⟩, h3⟩
        refine ⟨h1, ?_⟩
        rintro ⟨(rfl | h4), h5⟩
        · exact h2 rfl
        · exact h3 ⟨h4, h5⟩
      · rintro ⟨h1, h2⟩
        refine ⟨⟨h1, ?_⟩, ?_⟩
        · rintro rfl
          exact h2 ⟨Or.inl rfl, hq⟩
        · rintro ⟨h3, h4⟩
          exact h2 ⟨Or.inr h3, h4⟩

/-- C3 as amended: with a NON-EMPTY pending queue (otherwise
`syncPendingActions` returns immediately and reconciles nothing, see the
counterexample), in non-mock mode, with a readable local set and no
remote call failing, reconciliation makes the remote favorite set equal
to the local one — local is authoritative in both directions — and
leaves `pendingSyncActions` empty. -/
theorem nonempty_reconciliation_converges (s : SyncState) (env : RemoteEnv) (u : String)
    (localFavs : List Int)
    (hm : s.useMockData = false) (hp : s.pendingSyncActions ≠ [])
    (hs : env.script = [])
    (hget : getLocalFavorites false s.storage u = .ok localFavs) :
    ∃ env2, syncPendingActions s env u
        = (.ok (), { s with pendingSyncActions := [] }, env2) ∧
      ∀ x, (x ∈ env2.db ↔ x ∈ localFavs) := by
  have hne : s.pendingSyncActions.isEmpty = false := by
    rcases hq : s.pendingSyncActions with _ | ⟨a, rest⟩
    · exact absurd hq hp
    · rfl
  rcases env with ⟨db, script⟩
  simp only at hs
  subst hs
  have hA := syncAdditions_nil_spec localFavs db { db := db, script := [] } rfl
  have hR := syncRemovals_nil_spec localFavs db
    (syncAdditions localFavs db { db := db, script := [] }) hA.1
  refine ⟨syncRemovals localFavs db (syncAdditions localFavs db { db := db, script := [] }),
    ?_, ?_⟩
  · simp [syncPendingActions, hm, hne, hget, rpcSelectFavorites, nextOutcome]
  · intro x
    rw [hR.2 x, hA.2 x]
    by_cases hx : x ∈ db <;> by_cases hl : x ∈ localFavs <;> simp [hx, hl]

/-- C3 witness: from the concrete degraded session (local `{42}`, one
queued add) against a remote holding `{9}`, error-free reconciliation
ends with the remote containing exactly `{42}` and the queue empty. -/
theorem nonempty_reconciliation_converges_witness :
    degradedSession.pendingSyncActions ≠ [] ∧
    ∃ env2, syncPendingActions degradedSession { db := [9], script := [] } "u"
        = (.ok (), { degradedSession with pendingSyncActions := [] }, env2) ∧
      ∀ x, (x ∈ env2.db ↔ x ∈ ([42] : List Int)) := by
  refine ⟨List.cons_ne_nil _ _, ?_⟩
  exact nonempty_reconciliation_converges degradedSession { db := [9], script := [] }
    "u" [42] rfl (List.cons_ne_nil _ _) rfl rfl

end InspireMe
